import Mathlib

/-!
Shallow embedding of the marker/view-state controller implemented in
`src/App.js` of the Bear_Spotted_Project repository.

The component keeps two `useState` cells (`markers`, `selected`), a `useRef`
cell (`mapRef`), and wires four event handlers to them: `onMapClick` appends
a timestamped marker, a rendered marker's `onClick` selects it, the
`InfoWindow`'s `onCloseClick` clears the selection, and `onMapLoad` stores
the live map handle. `panTo` pans the stored handle and zooms to 14. The
`Locate` button requests the device position and pans on success. The
`Search` combobox's `onSelect` sets the input value without refetching,
clears suggestions, geocodes the address and pans to the first result,
swallowing any rejection.

JS numbers are modelled as rationals; a `Date` is modelled by its
millisecond instant as a natural number; the external geocoding service and
the geolocation sensor are modelled as explicit inputs.
-/

namespace BearSpotted

/-- A latitude/longitude pair as passed around by the handlers in `App.js`. -/
structure Coord where
  lat : Rat
  lng : Rat
deriving DecidableEq, Repr

/-- A placed marker, as built by `onMapClick`:
`{ lat: e.latLng.lat(), lng: e.latLng.lng(), time: new Date() }`.
The `time` field is the millisecond instant of the `Date`. -/
structure Marker where
  lat : Rat
  lng : Rat
  time : Nat
deriving DecidableEq, Repr

/-- The two `useState` cells of the `App` component: `markers` and
`selected`. -/
structure AppState where
  markers : List Marker
  selected : Option Marker
deriving DecidableEq, Repr

/-- The `onMapClick` handler:
`setMarkers(current => [...current, { lat, lng, time: new Date() }])`.
The argument `now` is the instant `new Date()` evaluates to at the click. -/
def onMapClick (s : AppState) (e : Coord) (now : Nat) : AppState :=
  { s with markers := s.markers ++ [{ lat := e.lat, lng := e.lng, time := now }] }

/-- The `onClick` handler of a rendered `Marker`: `setSelected(marker)`. -/
def markerOnClick (s : AppState) (m : Marker) : AppState :=
  { s with selected := some m }

/-- The `onCloseClick` handler of the `InfoWindow`: `setSelected(null)`. -/
def infoWindowOnCloseClick (s : AppState) : AppState :=
  { s with selected := none }

/-- The list key `key={marker.time.toISOString()}` of a rendered marker.
`toISOString` is determined by, and injective in, the millisecond instant
of the `Date`, so the key is modelled by that instant. -/
def markerKey (m : Marker) : Nat :=
  m.time

/-- The marker that `onMapClick` builds from one click event (its coordinate
and the instant `new Date()` yields at that click). -/
def markerOfEvent (e : Coord × Nat) : Marker :=
  { lat := e.1.lat, lng := e.1.lng, time := e.2 }

/-- Folding a sequence of map clicks (coordinate and click instant) over a
state: every marker list reachable by `onMapClick` calls arises this way. -/
def runClicks (s : AppState) (events : List (Coord × Nat)) : AppState :=
  events.foldl (fun st e => onMapClick st e.1 e.2) s

/-- The live Google-Maps view handle, reduced to its pan target and zoom. -/
structure View where
  panTarget : Coord
  zoom : Nat
deriving DecidableEq, Repr

/-- One method call issued on the view handle. -/
inductive ViewEffect where
  | pan (c : Coord)
  | setZoom (z : Nat)
deriving DecidableEq, Repr

/-- The meaning of one view-handle call on the view state. -/
def applyEffect (v : View) : ViewEffect → View
  | .pan c => { v with panTarget := c }
  | .setZoom z => { v with zoom := z }

/-- The `mapRef` `useRef` cell: `undefined` until `onMapLoad` stores the
map instance. -/
structure Camera where
  mapRef : Option View
deriving DecidableEq, Repr

/-- The `onMapLoad` callback: `mapRef.current = map`. -/
def onMapLoad (_cam : Camera) (map : View) : Camera :=
  { mapRef := some map }

/-- A thrown JS error. Calling `panTo` while `mapRef.current` is undefined
throws a `TypeError` when the method is read off `undefined`. -/
inductive JsError where
  | typeError
deriving DecidableEq, Repr

/-- The `panTo` callback of `App`:
`mapRef.current.panTo({ lat, lng }); mapRef.current.setZoom(14);`.
Returns the updated camera together with the ordered trace of view-handle
calls it issued, or the thrown `TypeError` when `mapRef.current` is still
undefined. -/
def panTo (cam : Camera) (c : Coord) : Except JsError (Camera × List ViewEffect) :=
  match cam.mapRef with
  | none => .error .typeError
  | some v =>
      let v1 := applyEffect v (.pan c)
      let v2 := applyEffect v1 (.setZoom 14)
      .ok ({ mapRef := some v2 }, [.pan c, .setZoom 14])

/-- Outcome of `navigator.geolocation.getCurrentPosition`: the success
callback receives `position.coords.latitude` and `.longitude`; the error
callback receives a failure (permission denied, unavailable, timeout). -/
inductive GeoOutcome where
  | success (latitude longitude : Rat)
  | failure
deriving DecidableEq, Repr

/-- The `onClick` handler of the `Locate` button: on success it calls
`panTo({ lat: position.coords.latitude, lng: position.coords.longitude })`
and logs; the error callback is `() => null`, discarding the failure.
Returns the camera and the list of coordinates `panTo` was invoked with. -/
def locateOnClick (cam : Camera) (r : GeoOutcome) : Except JsError (Camera × List Coord) :=
  match r with
  | .success la lo =>
      match panTo cam { lat := la, lng := lo } with
      | .ok (cam', _) => .ok (cam', [{ lat := la, lng := lo }])
      | .error e => .error e
  | .failure => .ok (cam, [])

/-- One autocomplete suggestion as rendered in the `ComboboxList`. -/
structure Suggestion where
  place_id : String
  description : String
deriving DecidableEq, Repr

/-- The `usePlacesAutocomplete` state that `Search` uses: the input `value`
and the suggestion `data`. -/
structure SearchSession where
  value : String
  suggestions : List Suggestion
deriving DecidableEq, Repr

/-- `setValue(text, shouldFetchData)` of `usePlacesAutocomplete`: updates
the input value; the returned flag records whether a suggestion fetch is
triggered by the update. -/
def setValue (s : SearchSession) (text : String) (shouldFetchData : Bool) :
    SearchSession × Bool :=
  ({ s with value := text }, shouldFetchData)

/-- `clearSuggestions()` of `usePlacesAutocomplete`. -/
def clearSuggestions (s : SearchSession) : SearchSession :=
  { s with suggestions := [] }

/-- Response of the external geocoding service for one address: a
rejection, or the ordered list of candidate coordinates (the value
`getLatLng` extracts from each entry of `getGeocode`'s result list). -/
abbrev GeocodeService : Type := String → Except Unit (List Coord)

/-- Result of one run of the `Combobox` `onSelect` handler: the search
state, the camera, the coordinates `panTo` was invoked with, and whether a
suggestion fetch was triggered. -/
structure SelectOutcome where
  session : SearchSession
  cam : Camera
  panToCalls : List Coord
  fetchTriggered : Bool
deriving DecidableEq, Repr

/-- The `onSelect` handler of the `Combobox` in `Search`:
`setValue(address, false); clearSuggestions();` then, inside `try`,
`getGeocode({ address })`, `getLatLng(results[0])` and `panTo({ lat, lng })`;
any rejection is caught by the `catch`, which only logs. An empty result
list makes `getLatLng(results[0])` throw on `undefined`, landing in the
same `catch`; a `TypeError` thrown by `panTo` itself would be caught too. -/
def onSelect (svc : GeocodeService) (s : SearchSession) (cam : Camera)
    (address : String) : SelectOutcome :=
  let step := setValue s address false
  let s2 := clearSuggestions step.1
  match svc address with
  | .error _ =>
      { session := s2, cam := cam, panToCalls := [], fetchTriggered := step.2 }
  | .ok results =>
      match results.head? with
      | none =>
          { session := s2, cam := cam, panToCalls := [], fetchTriggered := step.2 }
      | some c =>
          match panTo cam c with
          | .ok (cam', _) =>
              { session := s2, cam := cam', panToCalls := [c], fetchTriggered := step.2 }
          | .error _ =>
              { session := s2, cam := cam, panToCalls := [c], fetchTriggered := step.2 }

/-- The markers reached by a click sequence are the starting markers
followed by one marker per click, in click order. -/
lemma runClicks_markers (events : List (Coord × Nat)) (s : AppState) :
    (runClicks s events).markers = s.markers ++ events.map markerOfEvent := by
  induction events generalizing s with
  | nil => simp [runClicks]
  | cons e es ih =>
      have h : runClicks s (e :: es) = runClicks (onMapClick s e.1 e.2) es := rfl
      rw [h, ih]
      simp [onMapClick, markerOfEvent]

/-- C1: each `onMapClick` call grows `markers` by exactly one, and the
previously stored markers are preserved unchanged (same coordinates, same
timestamps) as a prefix. -/
theorem onMapClick_append_only (s : AppState) (e : Coord) (t : Nat) :
    (onMapClick s e t).markers.length = s.markers.length + 1 ∧
    (onMapClick s e t).markers.take s.markers.length = s.markers := by
  refine ⟨?_, ?_⟩
  · simp [onMapClick]
  · simp [onMapClick, List.take_left]

/-- C3: after selecting `m` then selecting `n ≠ m`, the selection is `n`;
closing the info window clears the selection from any state, and doing so
twice is the same as doing it once. -/
theorem selection_exclusive (s s2 : AppState) (m n : Marker) (_h : n ≠ m) :
    (markerOnClick (markerOnClick s m) n).selected = some n ∧
    (infoWindowOnCloseClick s2).selected = none ∧
    infoWindowOnCloseClick (infoWindowOnCloseClick s2) = infoWindowOnCloseClick s2 := by
  simp [markerOnClick, infoWindowOnCloseClick]

/-- Witness for C3 at concrete states and two distinct markers. -/
theorem selection_exclusive_witness :
    (markerOnClick
        (markerOnClick { markers := [], selected := none }
          { lat := 1, lng := 2, time := 3 })
        { lat := 1, lng := 2, time := 4 }).selected =
      some { lat := 1, lng := 2, time := 4 } ∧
    (infoWindowOnCloseClick
        { markers := [], selected := some { lat := 1, lng := 2, time := 3 } }).selected = none ∧
    infoWindowOnCloseClick
        (infoWindowOnCloseClick
          { markers := [], selected := some { lat := 1, lng := 2, time := 3 } }) =
      infoWindowOnCloseClick
        { markers := [], selected := some { lat := 1, lng := 2, time := 3 } } :=
  selection_exclusive { markers := [], selected := none }
    { markers := [], selected := some { lat := 1, lng := 2, time := 3 } }
    { lat := 1, lng := 2, time := 3 } { lat := 1, lng := 2, time := 4 } (by decide)

/-- C10: `onMapClick` leaves the selection unchanged, and both selection
handlers leave the marker list unchanged. -/
theorem handlers_frame (s : AppState) (e : Coord) (t : Nat) (m : Marker) :
    (onMapClick s e t).selected = s.selected ∧
    (markerOnClick s m).markers = s.markers ∧
    (infoWindowOnCloseClick s).markers = s.markers := by
  simp [onMapClick, markerOnClick, infoWindowOnCloseClick]

/-- C6: with a view attached, two consecutive `panTo` calls with the same
coordinate leave the camera in the same final state as a single call (and
the second call issues the same view-handle trace as the first). -/
theorem panTo_idempotent (v : View) (c : Coord) :
    ∃ cam' tr, panTo { mapRef := some v } c = .ok (cam', tr) ∧
      panTo cam' c = .ok (cam', tr) := by
  exact ⟨{ mapRef := some { panTarget := c, zoom := 14 } },
    [.pan c, .setZoom 14], rfl, rfl⟩

/-- C7: `panTo` issues exactly a pan to the coordinate followed by setting
zoom to 14, in that order, returning no other value; its only effect is to
leave the attached view updated by those two calls in sequence. -/
theorem panTo_pan_then_zoom (v : View) (c : Coord) :
    panTo { mapRef := some v } c =
      .ok ({ mapRef := some (applyEffect (applyEffect v (.pan c)) (.setZoom 14)) },
        [.pan c, .setZoom 14]) :=
  rfl

/-- C9: calling `panTo` before `onMapLoad` has stored the view handle
throws a `TypeError` (fails loudly, not swallowed); once `onMapLoad` has
run, `panTo` does not throw. -/
theorem panTo_attach_precondition (cam : Camera) (c : Coord) (v : View) :
    panTo { mapRef := none } c = .error .typeError ∧
    ∃ r, panTo (onMapLoad cam v) c = .ok r := by
  exact ⟨rfl, ⟨({ mapRef := some { panTarget := c, zoom := 14 } },
    [.pan c, .setZoom 14]), rfl⟩⟩

/-- C4: when geolocation resolves with a coordinate, the `Locate` handler
invokes `panTo` exactly once with that coordinate and the view ends at that
pan target with the default zoom 14; when geolocation fails, the error is
discarded, no `panTo` call is made and the camera is unchanged. -/
theorem locate_behavior (v : View) (la lo : Rat) (cam2 : Camera) :
    locateOnClick { mapRef := some v } (.success la lo) =
      .ok ({ mapRef := some { panTarget := { lat := la, lng := lo }, zoom := 14 } },
        [{ lat := la, lng := lo }]) ∧
    locateOnClick cam2 .failure = .ok (cam2, []) :=
  ⟨rfl, rfl⟩

/-- Geocode service that always rejects, for the C2 instances. -/
def svcReject : GeocodeService := fun _ => .error ()

/-- Counterexample to C2 as stated: on a geocode rejection, `queryText` is
not unchanged — `setValue(address, false)` has already replaced the typed
text with the selected suggestion's description before the `try` block
runs. Here the typed text `ab` becomes `abc` although the service
rejected. -/
theorem selectSuggestion_failure_counterexample :
    (onSelect svcReject
        { value := "ab", suggestions := [{ place_id := "p1", description := "abc" }] }
        { mapRef := some { panTarget := { lat := 0, lng := 0 }, zoom := 8 } }
        "abc").session.value ≠ "ab" := by
  decide

/-- C2 amended: when the geocode service rejects or returns an empty result
list, the error is swallowed, `queryText` equals the selected suggestion's
description (set before resolution and not restored), `suggestions` is
cleared, no suggestion fetch is triggered, and `panTo` is never invoked. -/
theorem selectSuggestion_failure (svc : GeocodeService) (s : SearchSession)
    (cam : Camera) (address : String)
    (h : svc address = .error () ∨ svc address = .ok []) :
    (onSelect svc s cam address).session.value = address ∧
    (onSelect svc s cam address).session.suggestions = [] ∧
    (onSelect svc s cam address).panToCalls = [] ∧
    (onSelect svc s cam address).fetchTriggered = false ∧
    (onSelect svc s cam address).cam = cam := by
  rcases h with h | h <;>
    simp [onSelect, setValue, clearSuggestions, h]

/-- Witness for C2 (amended) at a concrete rejecting service. -/
theorem selectSuggestion_failure_witness :
    (onSelect svcReject
        { value := "ab", suggestions := [{ place_id := "p1", description := "xy" }] }
        { mapRef := none } "xy").session.value = "xy" ∧
    (onSelect svcReject
        { value := "ab", suggestions := [{ place_id := "p1", description := "xy" }] }
        { mapRef := none } "xy").session.suggestions = [] ∧
    (onSelect svcReject
        { value := "ab", suggestions := [{ place_id := "p1", description := "xy" }] }
        { mapRef := none } "xy").panToCalls = [] ∧
    (onSelect svcReject
        { value := "ab", suggestions := [{ place_id := "p1", description := "xy" }] }
        { mapRef := none } "xy").fetchTriggered = false ∧
    (onSelect svcReject
        { value := "ab", suggestions := [{ place_id := "p1", description := "xy" }] }
        { mapRef := none } "xy").cam = { mapRef := none } :=
  selectSuggestion_failure svcReject
    { value := "ab", suggestions := [{ place_id := "p1", description := "xy" }] }
    { mapRef := none } "xy" (Or.inl rfl)

/-- C5: when geocoding succeeds with at least one candidate and a view is
attached, `onSelect` sets `queryText` to the suggestion's description
without triggering a suggestion fetch, clears `suggestions`, and invokes
`panTo` once with the first candidate coordinate, leaving the view there
at zoom 14. -/
theorem selectSuggestion_success (svc : GeocodeService) (s : SearchSession)
    (cam : Camera) (address : String) (c : Coord) (rest : List Coord) (v : View)
    (hsvc : svc address = .ok (c :: rest)) (hcam : cam.mapRef = some v) :
    (onSelect svc s cam address).session.value = address ∧
    (onSelect svc s cam address).fetchTriggered = false ∧
    (onSelect svc s cam address).session.suggestions = [] ∧
    (onSelect svc s cam address).panToCalls = [c] ∧
    (onSelect svc s cam address).cam =
      { mapRef := some { panTarget := c, zoom := 14 } } := by
  simp [onSelect, setValue, clearSuggestions, hsvc, panTo, hcam, applyEffect]

/-- Geocode service answering two candidates, for the C5 witness. -/
def svcTwo : GeocodeService :=
  fun _ => .ok [{ lat := 7, lng := 8 }, { lat := 9, lng := 10 }]

/-- Witness for C5 at a concrete service with two candidates: the first is
used. -/
theorem selectSuggestion_success_witness :
    (onSelect svcTwo { value := "ab", suggestions := [] }
        { mapRef := some { panTarget := { lat := 0, lng := 0 }, zoom := 8 } }
        "abc").session.value = "abc" ∧
    (onSelect svcTwo { value := "ab", suggestions := [] }
        { mapRef := some { panTarget := { lat := 0, lng := 0 }, zoom := 8 } }
        "abc").fetchTriggered = false ∧
    (onSelect svcTwo { value := "ab", suggestions := [] }
        { mapRef := some { panTarget := { lat := 0, lng := 0 }, zoom := 8 } }
        "abc").session.suggestions = [] ∧
    (onSelect svcTwo { value := "ab", suggestions := [] }
        { mapRef := some { panTarget := { lat := 0, lng := 0 }, zoom := 8 } }
        "abc").panToCalls = [{ lat := 7, lng := 8 }] ∧
    (onSelect svcTwo { value := "ab", suggestions := [] }
        { mapRef := some { panTarget := { lat := 0, lng := 0 }, zoom := 8 } }
        "abc").cam =
      { mapRef := some { panTarget := { lat := 7, lng := 8 }, zoom := 14 } } :=
  selectSuggestion_success svcTwo { value := "ab", suggestions := [] }
    { mapRef := some { panTarget := { lat := 0, lng := 0 }, zoom := 8 } }
    "abc" { lat := 7, lng := 8 } [{ lat := 9, lng := 10 }]
    { panTarget := { lat := 0, lng := 0 }, zoom := 8 } rfl rfl

/-- Counterexample to C8 as stated: two clicks whose `new Date()` instants
coincide produce two markers with the same key, so keys are not pairwise
distinct on every reachable list. -/
theorem marker_keys_counterexample :
    ¬ ((runClicks { markers := [], selected := none }
        [({ lat := 1, lng := 2 }, 5), ({ lat := 3, lng := 4 }, 5)]).markers.map
          markerKey).Nodup := by
  decide

/-- C8 amended: on every marker list reachable by a sequence of
`onMapClick` calls from the empty state, the `createdAt` keys are pairwise
distinct provided the click instants of the sequence are pairwise
distinct. -/
theorem marker_keys_distinct (events : List (Coord × Nat))
    (h : (events.map Prod.snd).Nodup) :
    ((runClicks { markers := [], selected := none } events).markers.map
      markerKey).Nodup := by
  have hm : (runClicks { markers := [], selected := none } events).markers.map
      markerKey = events.map Prod.snd := by
    rw [runClicks_markers]
    simp [List.map_map]
    intro a b _
    rfl
  rw [hm]
  exact h

/-- Witness for C8 (amended) at two clicks with distinct instants. -/
theorem marker_keys_distinct_witness :
    ((runClicks { markers := [], selected := none }
        [({ lat := 1, lng := 2 }, 5), ({ lat := 3, lng := 4 }, 6)]).markers.map
      markerKey).Nodup :=
  marker_keys_distinct [({ lat := 1, lng := 2 }, 5), ({ lat := 3, lng := 4 }, 6)]
    (by decide)

end BearSpotted
